import Mathlib

/-!
Verification of the deepfake_check repository's core pipeline.

Shallow embedding conventions:
* Python floats are modelled by exact rationals (`ℚ`).  Thresholds written
  against a standard deviation `std < c` (with `c > 0`) are embedded as the
  equivalent variance comparison `var < c^2`, since `std = sqrt var` and both
  sides are nonnegative; this keeps every definition computable.
* Library calls (librosa feature extraction, scipy statistics, numpy
  mean/std of library-produced arrays, cv2 image kernels) are oracle inputs:
  the repository's own Python lines after each library call are embedded
  exactly.
* Python `dict`s with string keys are association lists with unique keys in
  insertion order; `dict.update` is embedded by `dictUpdate` below.
* `numpy.mean`/`numpy.std` of an empty array is NaN and every comparison
  with NaN is false; conditions computed from possibly-empty lists therefore
  carry an explicit nonemptiness conjunct in the embedding.
-/

namespace DeepfakeCheck

/-- One anomaly record, embedding the Python dicts such as
`{'detected': True, 'mean': ..., 'std': ..., 'reason': ...}` built by the
extractors.  Scalar evidence goes to `fields`, list-valued evidence
(`channel_means`) to `listFields`.  Evidence entries whose value is an
irrational square root (a float `std` in Python) are omitted from the
rational model; no claim inspects them. -/
structure Anomaly where
  detected : Bool
  reason : String
  fields : List (String × ℚ) := []
  listFields : List (String × List ℚ) := []
deriving DecidableEq, Repr

/-- A Python dict from anomaly name to anomaly, as an association list with
unique keys in insertion order. -/
abbrev AnomalySet := List (String × Anomaly)

/-- The key list of an association list (Python `dict.keys()`, in order). -/
def keys (d : AnomalySet) : List String := d.map Prod.fst

/-- Python `d1.update(d2)` (functionally): keys of `d1` keep their position
but take `d2`'s value when present there; keys of `d2` not in `d1` are
appended in order. -/
def dictUpdate (d1 d2 : AnomalySet) : AnomalySet :=
  (d1.map fun kv =>
    match d2.lookup kv.1 with
    | some v => (kv.1, v)
    | none => kv) ++
  d2.filter fun kv => (d1.lookup kv.1).isNone

/-- numpy `mean` of a rational list (population mean). -/
def listMean (l : List ℚ) : ℚ := l.sum / l.length

/-- numpy `var` with the default `ddof=0` (population variance); numpy's
`std` is its square root. -/
def listVar (l : List ℚ) : ℚ := listMean (l.map fun x => (x - listMean l) ^ 2)

/-- AudioAnalyzer.SUPPORTED_FORMATS. -/
def audioSupportedFormats : List String :=
  [".mp3", ".wav", ".m4a", ".flac", ".ogg", ".aac", ".wma"]

/-- VideoAnalyzer.SUPPORTED_FORMATS. -/
def videoSupportedFormats : List String :=
  [".mp4", ".avi", ".mov", ".mkv", ".flv", ".wmv", ".webm"]

/-- Python `str.lower()` restricted to the ASCII range, which covers every
extension compared against the supported-format sets. -/
def strLower (s : String) : String := String.mk (s.data.map Char.toLower)

/-- The audio `weights` table of `AudioAnalyzer._calculate_confidence`
together with the `dict.get(key, 0.1)` default. -/
def audioWeight (k : String) : ℚ :=
  if k = "spectral_centroid_anomaly" then 25/100
  else if k = "spectral_rolloff_anomaly" then 15/100
  else if k = "zero_crossing_anomaly" then 20/100
  else if k = "energy_anomaly" then 20/100
  else if k = "onset_pattern_anomaly" then 10/100
  else if k = "kurtosis_anomaly" then 5/100
  else if k = "skewness_anomaly" then 5/100
  else 1/10

/-- The video `weights` table of `VideoAnalyzer._calculate_confidence`
together with the `dict.get(key, 0.1)` default. -/
def videoWeight (k : String) : ℚ :=
  if k = "sharpness_anomaly" then 15/100
  else if k = "low_sharpness_anomaly" then 10/100
  else if k = "temporal_consistency_anomaly" then 25/100
  else if k = "temporal_jump_anomaly" then 15/100
  else if k = "color_distribution_anomaly" then 15/100
  else if k = "color_balance_anomaly" then 10/100
  else if k = "edge_consistency_anomaly" then 5/100
  else if k = "low_edge_density_anomaly" then 5/100
  else 1/10

/-- `_calculate_confidence` (shared shape of the audio and video versions):
return 0.0 on an empty anomaly dict, otherwise accumulate the weight of each
key and clamp with `min(total_weight, 1.0)`. -/
def calculateConfidence (w : String → ℚ) (anomalies : AnomalySet) : ℚ :=
  if anomalies = [] then 0
  else min ((keys anomalies).foldl (fun acc k => acc + w k) 0) 1

/-- `AudioAnalyzer._calculate_confidence`. -/
def audioCalculateConfidence : AnomalySet → ℚ := calculateConfidence audioWeight

/-- `VideoAnalyzer._calculate_confidence`. -/
def videoCalculateConfidence : AnomalySet → ℚ := calculateConfidence videoWeight

/-- The error kinds raised by the repository: `FileNotFoundError`,
`ValueError` for an unsupported extension, `ImportError` at analyzer
construction, `RuntimeError` wrapping a load/open failure, and the
`AttributeError` a call to a nonexistent library attribute raises. -/
inductive AnalyzerError where
  | fileNotFound
  | unsupportedFormat
  | missingDependency
  | loadFailure (msg : String)
  | attributeError (msg : String)
deriving DecidableEq, Repr

/-- The `AnalysisResult` dataclass of `base.py`. -/
structure AnalysisResult where
  file_path : String
  file_type : String
  is_likely_ai_generated : Bool
  confidence_score : ℚ
  anomalies_detected : AnomalySet
  analysis_details : List (String × AnomalySet)
deriving DecidableEq, Repr

/-- A `pathlib.Path` as the analyzers use it: its string form, whether it
exists on disk, and its extension (`path.suffix`). -/
structure PyPath where
  name : String
  existsOnDisk : Bool
  suffix : String

/-- The librosa/scipy-computed statistics of one loaded audio signal; each
field is the value of exactly one library call in `audio/analyzer.py`
(oracle inputs to the embedded repository logic).  `zcrVar`, `rmsStd` and
the onset-interval statistics keep their numpy meaning; variance stands in
for a squared standard deviation as explained in the header. -/
structure AudioFeatures where
  centroidMean : ℚ   -- np.mean(spectral_centroids)
  centroidVar : ℚ    -- np.std(spectral_centroids) squared
  rolloffMean : ℚ    -- np.mean(spectral_rolloff)
  zcrMean : ℚ        -- np.mean(zcr)
  zcrVar : ℚ         -- np.std(zcr) squared
  rmsMean : ℚ        -- np.mean(rms)
  rmsStd : ℚ         -- np.std(rms)  (used unsquared: divided, not compared)
  onsets : List ℤ    -- librosa.onset.onset_detect frame indices
  kurtosis : ℚ       -- scipy.stats.kurtosis(y)
  sr : ℚ             -- sample rate from librosa.load

/-- `AudioAnalyzer._analyze_spectral_features`.  `centroid_std < 500 or
centroid_std > 5000` is embedded as `centroidVar < 500² ∨ centroidVar >
5000²`, and `np.std(zcr) < 0.01` as `zcrVar < 0.01²`. -/
def analyzeSpectralFeatures (f : AudioFeatures) : AnomalySet :=
  (if f.centroidVar < 500 ^ 2 ∨ f.centroidVar > 5000 ^ 2 then
    [("spectral_centroid_anomaly",
      { detected := true
        reason := "Unusual spectral centroid distribution"
        fields := [("mean", f.centroidMean)] })]
  else []) ++
  (if f.rolloffMean > f.sr * (9/10) then
    [("spectral_rolloff_anomaly",
      { detected := true
        reason := "Abnormally high spectral rolloff"
        fields := [("mean", f.rolloffMean)] })]
  else []) ++
  (if f.zcrVar < (1/100) ^ 2 then
    [("zero_crossing_anomaly",
      { detected := true
        reason := "Unnaturally consistent zero crossing rate"
        fields := [("mean", f.zcrMean)] })]
  else [])

/-- numpy `diff` on the onset index array. -/
def npDiff (l : List ℤ) : List ℤ := List.zipWith (fun a b => b - a) l l.tail

/-- `AudioAnalyzer._analyze_temporal_features`.  The energy test
`rms_std / (rms_mean + 1e-6) < 0.1` is embedded verbatim over ℚ; the onset
test `np.std(onset_intervals) < 2` becomes `var < 4`. -/
def analyzeTemporalFeatures (f : AudioFeatures) : AnomalySet :=
  (if f.rmsStd / (f.rmsMean + 1/1000000) < 1/10 then
    [("energy_anomaly",
      { detected := true
        reason := "Unnaturally consistent energy levels"
        fields := [("mean", f.rmsMean), ("std", f.rmsStd)] })]
  else []) ++
  (if f.onsets.length > 1 then
    (let onsetIntervals := npDiff f.onsets
     if onsetIntervals.length > 2 ∧
         listVar (onsetIntervals.map fun n => (n : ℚ)) < 2 ^ 2 then
       [("onset_pattern_anomaly",
         { detected := true
           reason := "Suspiciously regular onset patterns"
           fields := [("onset_count", (f.onsets.length : ℚ))] })]
     else [])
  else [])

/-- `AudioAnalyzer._analyze_statistical_features`.  The kurtosis branch is
embedded as written, but the next line of the Python source calls
`scipy.stats.skewness(y)` — scipy exposes `scipy.stats.skew`, not
`skewness` — so the function always raises `AttributeError` and the
accumulated anomaly dict is discarded. -/
def analyzeStatisticalFeatures (kurtosis : ℚ) : Except String AnomalySet :=
  let anomalies : AnomalySet :=
    if |kurtosis| < 1 then
      [("kurtosis_anomaly",
        { detected := true
          reason := "Abnormal distribution kurtosis"
          fields := [("value", kurtosis)] })]
    else []
  -- `skewness = scipy.stats.skewness(y)` raises before `anomalies` is used
  have _hUnusedOnCrash : AnomalySet := anomalies
  Except.error "module scipy.stats has no attribute skewness"

/-- The tail of both `analyze` methods: score the merged anomaly dict with
the modality's weight table, derive `is_likely_ai = confidence_score > 0.5`
and build the `AnalysisResult`. -/
def mkResult (path : PyPath) (fileType : String) (w : String → ℚ)
    (anomalies : AnomalySet) (details : List (String × AnomalySet)) :
    AnalysisResult :=
  let confidence := calculateConfidence w anomalies
  { file_path := path.name
    file_type := fileType
    is_likely_ai_generated := decide (confidence > 1/2)
    confidence_score := confidence
    anomalies_detected := anomalies
    analysis_details := details }

/-- `AudioAnalyzer.analyze`: existence check, `supports_file` re-check,
load, the three extractor groups merged with `dict.update` in order, then
score and result construction.  The load oracle stands for
`librosa.load` plus the library feature calls on its output. -/
def audioAnalyze (path : PyPath) (load : Except String AudioFeatures) :
    Except AnalyzerError AnalysisResult :=
  if path.existsOnDisk = false then .error .fileNotFound
  else if strLower path.suffix ∉ audioSupportedFormats then
    .error .unsupportedFormat
  else
    match load with
    | .error e => .error (.loadFailure e)
    | .ok f =>
      let spectralAnomalies := analyzeSpectralFeatures f
      let anomalies1 := dictUpdate [] spectralAnomalies
      let temporalAnomalies := analyzeTemporalFeatures f
      let anomalies2 := dictUpdate anomalies1 temporalAnomalies
      match analyzeStatisticalFeatures f.kurtosis with
      | .error e => .error (.attributeError e)
      | .ok statisticalAnomalies =>
        let anomalies := dictUpdate anomalies2 statisticalAnomalies
        let details :=
          [("spectral", spectralAnomalies), ("temporal", temporalAnomalies),
           ("statistical", statisticalAnomalies)]
        .ok (mkResult path "audio" audioWeight anomalies details)

/-- One decoded video frame, carrying the cv2/numpy per-frame statistics
the extractors consume (oracle inputs): the Laplacian-variance sharpness of
its grayscale conversion, per-channel pixel mean and std for the three BGR
channels, and the Canny edge-pixel density. -/
structure Frame where
  sharpness : ℚ              -- cv2.Laplacian(gray).var()
  chMean0 : ℚ                -- np.mean(frame[:, :, 0])
  chMean1 : ℚ                -- np.mean(frame[:, :, 1])
  chMean2 : ℚ                -- np.mean(frame[:, :, 2])
  chStd0 : ℚ                 -- np.std(frame[:, :, 0])
  chStd1 : ℚ                 -- np.std(frame[:, :, 1])
  chStd2 : ℚ                 -- np.std(frame[:, :, 2])
  edgeDensity : ℚ            -- np.sum(cv2.Canny(gray) > 0) / size
deriving DecidableEq

/-- A `cv2.VideoCapture`: whether it opened, the reported properties, and
the frame delivered by `read()` after seeking to a given index (`none`
models `ret == False`). -/
structure VideoCapture where
  opened : Bool
  fps : ℚ
  frameCount : ℕ
  width : ℕ
  height : ℕ
  readFrame : ℕ → Option Frame

/-- The index arithmetic of `VideoAnalyzer._sample_frames`: `range`
when `frame_count <= sample_frames`, otherwise
`np.linspace(0, frame_count - 1, sample_frames, dtype=int)`.  For `j`-th of
`N` points linspace yields `j * (frame_count - 1) / (N - 1)` truncated to
an integer, which over naturals is exactly ℕ-division; with `N = 1`
linspace returns just the start point `0`, matching ℕ-division by zero. -/
def sampleIndices (frameCount sampleFrames : ℕ) : List ℕ :=
  if frameCount ≤ sampleFrames then List.range frameCount
  else (List.range sampleFrames).map fun j =>
    j * (frameCount - 1) / (sampleFrames - 1)

/-- `VideoAnalyzer._sample_frames`: seek to each selected index and keep
the frames whose read succeeded. -/
def sampleFramesFromCap (cap : VideoCapture) (sampleFrames : ℕ) : List Frame :=
  (sampleIndices cap.frameCount sampleFrames).filterMap cap.readFrame

/-- `VideoAnalyzer._analyze_frame_quality`.  `std_sharpness < 10` becomes
`var < 10²`; the nonemptiness conjuncts embed that numpy statistics of an
empty score list are NaN, failing every comparison. -/
def analyzeFrameQuality (frames : List Frame) : AnomalySet :=
  let sharpnessScores := frames.map Frame.sharpness
  let meanSharpness := listMean sharpnessScores
  (if frames ≠ [] ∧ listVar sharpnessScores < 10 ^ 2 ∧ meanSharpness > 50 then
    [("sharpness_anomaly",
      { detected := true
        reason := "Unnaturally consistent sharpness across frames"
        fields := [("mean", meanSharpness)] })]
  else []) ++
  (if frames ≠ [] ∧ meanSharpness < 30 then
    [("low_sharpness_anomaly",
      { detected := true
        reason := "Unusually low overall sharpness"
        fields := [("mean", meanSharpness)] })]
  else [])

/-- Maximum of a list of rationals (numpy `max`; only applied to nonempty
lists by the guarded caller). -/
def listMax (l : List ℚ) : ℚ := l.foldl max (l.headD 0)

/-- `VideoAnalyzer._analyze_temporal_consistency`, parametrised by the cv2
oracle `adiff f1 f2 = np.mean(cv2.absdiff(gray1, gray2))`.  `std_diff <
1.0` becomes `var < 1²`. -/
def analyzeTemporalConsistency (adiff : Frame → Frame → ℚ)
    (frames : List Frame) : AnomalySet :=
  if frames.length < 2 then []
  else
    let frameDiffs := List.zipWith adiff frames frames.tail
    let meanDiff := listMean frameDiffs
    let maxDiff := listMax frameDiffs
    (if listVar frameDiffs < 1 ^ 2 ∧ meanDiff > 5 then
      [("temporal_consistency_anomaly",
        { detected := true
          reason := "Suspiciously consistent temporal changes"
          fields := [("mean_diff", meanDiff)] })]
    else []) ++
    (if maxDiff > meanDiff * 5 then
      [("temporal_jump_anomaly",
        { detected := true
          reason := "Unusual temporal discontinuities detected"
          fields := [("max_diff", maxDiff), ("mean_diff", meanDiff)] })]
    else [])

/-- `VideoAnalyzer._analyze_color_distribution`.  The per-frame,
per-channel loop appending `np.mean`/`np.std` of each channel is unrolled
over the three BGR channels; `channel_imbalance > 30` (a std of the three
channel averages) becomes `var > 30²`. -/
def analyzeColorDistribution (frames : List Frame) : AnomalySet :=
  let colorMeans := frames.flatMap fun f => [f.chMean0, f.chMean1, f.chMean2]
  let colorStds := frames.flatMap fun f => [f.chStd0, f.chStd1, f.chStd2]
  let overallMean := listMean colorMeans
  let overallStd := listMean colorStds
  let channelAvgs :=
    [listMean (frames.map Frame.chMean0), listMean (frames.map Frame.chMean1),
     listMean (frames.map Frame.chMean2)]
  (if frames ≠ [] ∧ overallStd < 20 then
    [("color_distribution_anomaly",
      { detected := true
        reason := "Unnaturally low color variation"
        fields := [("mean", overallMean), ("std", overallStd)] })]
  else []) ++
  (if frames ≠ [] ∧ listVar channelAvgs > 30 ^ 2 then
    [("color_balance_anomaly",
      { detected := true
        reason := "Unusual color channel imbalance"
        listFields := [("channel_means", channelAvgs)] })]
  else [])

/-- `VideoAnalyzer._analyze_edges`.  `std_density < 0.001` becomes
`var < 0.001²`. -/
def analyzeEdges (frames : List Frame) : AnomalySet :=
  let edgeDensities := frames.map Frame.edgeDensity
  let meanDensity := listMean edgeDensities
  (if frames ≠ [] ∧ listVar edgeDensities < (1/1000) ^ 2 then
    [("edge_consistency_anomaly",
      { detected := true
        reason := "Suspiciously consistent edge patterns"
        fields := [("mean_density", meanDensity)] })]
  else []) ++
  (if frames ≠ [] ∧ meanDensity < 2/100 then
    [("low_edge_density_anomaly",
      { detected := true
        reason := "Unusually low edge density"
        fields := [("mean_density", meanDensity)] })]
  else [])

/-- `VideoAnalyzer.analyze`: existence check, `supports_file` re-check,
open check, frame sampling, the four extractor groups merged with
`dict.update` in order, then score and result construction. -/
def videoAnalyze (path : PyPath) (cap : VideoCapture)
    (adiff : Frame → Frame → ℚ) (sampleFrames : ℕ) :
    Except AnalyzerError AnalysisResult :=
  if path.existsOnDisk = false then .error .fileNotFound
  else if strLower path.suffix ∉ videoSupportedFormats then
    .error .unsupportedFormat
  else if cap.opened = false then
    .error (.loadFailure ("Failed to open video file: " ++ path.name))
  else
    let frames := sampleFramesFromCap cap sampleFrames
    let qualityAnomalies := analyzeFrameQuality frames
    let anomalies1 := dictUpdate [] qualityAnomalies
    let temporalAnomalies := analyzeTemporalConsistency adiff frames
    let anomalies2 := dictUpdate anomalies1 temporalAnomalies
    let colorAnomalies := analyzeColorDistribution frames
    let anomalies3 := dictUpdate anomalies2 colorAnomalies
    let edgeAnomalies := analyzeEdges frames
    let anomalies := dictUpdate anomalies3 edgeAnomalies
    let details :=
      [("quality", qualityAnomalies), ("temporal", temporalAnomalies),
       ("color", colorAnomalies), ("edges", edgeAnomalies)]
    .ok (mkResult path "video" videoWeight anomalies details)

/-- `AudioAnalyzer.__init__`: raises `ImportError` when librosa/scipy are
unavailable, otherwise stores the verbose flag. -/
def mkAudioAnalyzer (audioLibsAvailable verbose : Bool) :
    Except AnalyzerError Bool :=
  if audioLibsAvailable = false then .error .missingDependency
  else .ok verbose

/-- `VideoAnalyzer.__init__`: raises `ImportError` when opencv is
unavailable, otherwise stores the verbose flag and frame budget. -/
def mkVideoAnalyzer (videoLibsAvailable verbose : Bool) (sampleFrames : ℕ) :
    Except AnalyzerError (Bool × ℕ) :=
  if videoLibsAvailable = false then .error .missingDependency
  else .ok (verbose, sampleFrames)

/-- The environment the dispatcher runs in: library availability (consulted
by the lazily constructed modality analyzers) and the media oracles. -/
structure DispatchEnv where
  audioLibsAvailable : Bool
  videoLibsAvailable : Bool
  audioLoad : Except String AudioFeatures
  videoCap : VideoCapture
  adiff : Frame → Frame → ℚ

/-- `DeepfakeAnalyzer.analyze`: existence check, then dispatch on the
lower-cased extension; the chosen modality analyzer is constructed lazily
(which can raise `ImportError`) and then run; unknown extensions raise
`ValueError`.  `VideoAnalyzer` is constructed with its default
`sample_frames=30`. -/
def deepfakeAnalyze (env : DispatchEnv) (path : PyPath) :
    Except AnalyzerError AnalysisResult :=
  if path.existsOnDisk = false then .error .fileNotFound
  else
    let suffix := strLower path.suffix
    if suffix ∈ audioSupportedFormats then
      match mkAudioAnalyzer env.audioLibsAvailable false with
      | .error e => .error e
      | .ok _ => audioAnalyze path env.audioLoad
    else if suffix ∈ videoSupportedFormats then
      match mkVideoAnalyzer env.videoLibsAvailable false 30 with
      | .error e => .error e
      | .ok _ => videoAnalyze path env.videoCap env.adiff 30
    else .error .unsupportedFormat

/-- The weight-accumulation loop of `_calculate_confidence` is the sum of
the mapped weights. -/
theorem foldl_add_weight (w : String → ℚ) :
    ∀ (l : List String) (a : ℚ),
      l.foldl (fun acc k => acc + w k) a = a + (l.map w).sum
  | [], a => by simp
  | k :: l, a => by
    rw [List.foldl_cons, foldl_add_weight w l (a + w k), List.map_cons,
      List.sum_cons, add_assoc]

/-- Every audio weight, including the 0.1 default, is positive. -/
theorem audioWeight_pos (k : String) : 0 < audioWeight k := by
  unfold audioWeight
  split_ifs <;> norm_num

/-- Every video weight, including the 0.1 default, is positive. -/
theorem videoWeight_pos (k : String) : 0 < videoWeight k := by
  unfold videoWeight
  split_ifs <;> norm_num

/-- On unique keys the confidence is the clamped set-sum of weights. -/
theorem calculateConfidence_eq (w : String → ℚ) (d : AnomalySet)
    (hd : (keys d).Nodup) :
    calculateConfidence w d = min 1 (∑ k in (keys d).toFinset, w k) := by
  unfold calculateConfidence
  split_ifs with h
  · subst h
    simp [keys]
  · rw [foldl_add_weight, zero_add, List.sum_toFinset w hd, min_comm]

/-- The confidence score is nonnegative whenever the weights are. -/
theorem calculateConfidence_nonneg (w : String → ℚ) (d : AnomalySet)
    (hw : ∀ k, 0 ≤ w k) : 0 ≤ calculateConfidence w d := by
  unfold calculateConfidence
  split_ifs with h
  · exact le_refl 0
  · refine le_min ?_ (by norm_num)
    rw [foldl_add_weight, zero_add]
    refine List.sum_nonneg fun x hx => ?_
    obtain ⟨k, -, rfl⟩ := List.mem_map.mp hx
    exact hw k

/-- The confidence score never exceeds one. -/
theorem calculateConfidence_le_one (w : String → ℚ) (d : AnomalySet) :
    calculateConfidence w d ≤ 1 := by
  unfold calculateConfidence
  split_ifs with h
  · norm_num
  · exact min_le_right _ _

/-- C1: for every anomaly set handed to a modality's confidence
aggregator, the returned confidence equals `min(1, Σ weight(name))` over
the names present (table weight, defaulting to 0.1), is 0 on the empty
set, lies in `[0, 1]`, and — being the clamped sum over the finite set of
keys — depends only on the set of anomaly names present. -/
theorem confidence_aggregator_spec (d : AnomalySet) (hd : (keys d).Nodup) :
    (audioCalculateConfidence d
        = min 1 (∑ k in (keys d).toFinset, audioWeight k)
      ∧ 0 ≤ audioCalculateConfidence d ∧ audioCalculateConfidence d ≤ 1)
    ∧ (videoCalculateConfidence d
        = min 1 (∑ k in (keys d).toFinset, videoWeight k)
      ∧ 0 ≤ videoCalculateConfidence d ∧ videoCalculateConfidence d ≤ 1)
    ∧ audioCalculateConfidence [] = 0 ∧ videoCalculateConfidence [] = 0 := by
  refine ⟨⟨?_, ?_, ?_⟩, ⟨?_, ?_, ?_⟩, ?_, ?_⟩
  · exact calculateConfidence_eq audioWeight d hd
  · exact calculateConfidence_nonneg audioWeight d
      fun k => le_of_lt (audioWeight_pos k)
  · exact calculateConfidence_le_one audioWeight d
  · exact calculateConfidence_eq videoWeight d hd
  · exact calculateConfidence_nonneg videoWeight d
      fun k => le_of_lt (videoWeight_pos k)
  · exact calculateConfidence_le_one videoWeight d
  · rfl
  · rfl

/-- A two-anomaly set used to instantiate the aggregator theorem. -/
def c1SampleSet : AnomalySet :=
  [("spectral_centroid_anomaly",
    { detected := true, reason := "Unusual spectral centroid distribution" }),
   ("kurtosis_anomaly",
    { detected := true, reason := "Abnormal distribution kurtosis" })]

/-- Witness for C1 at a concrete two-anomaly set. -/
theorem confidence_aggregator_spec_witness :
    audioCalculateConfidence c1SampleSet
        = min 1 (∑ k in (keys c1SampleSet).toFinset, audioWeight k)
      ∧ 0 ≤ audioCalculateConfidence c1SampleSet :=
  ⟨(confidence_aggregator_spec c1SampleSet (by decide)).1.1,
   (confidence_aggregator_spec c1SampleSet (by decide)).1.2.1⟩

/-- C4 (code bug): the statistical feature extractor never returns an
anomaly set — its second statistic is computed by calling
`scipy.stats.skewness`, which does not exist (`scipy.stats.skew` is the
real name), so every call raises `AttributeError` regardless of the
signal; the kurtosis flag computed just before is discarded. -/
theorem statistical_extractor_always_raises (kurtosis : ℚ) :
    analyzeStatisticalFeatures kurtosis
      = Except.error "module scipy.stats has no attribute skewness" := rfl

/-- `AudioAnalyzer.analyze` never produces a result: the statistical
extractor it calls always raises. -/
theorem audioAnalyze_no_result (path : PyPath)
    (load : Except String AudioFeatures) (r : AnalysisResult) :
    audioAnalyze path load ≠ Except.ok r := by
  intro h
  rcases load with e | f <;>
    simp only [audioAnalyze, analyzeStatisticalFeatures] at h <;>
    split_ifs at h

/-- C2: every `AnalysisResult` constructed by an audio or video `analyze`
call has `is_likely_ai_generated` true exactly when its confidence score
exceeds 0.5.  (The audio pipeline never constructs a result at all, by
`audioAnalyze_no_result`.) -/
theorem result_flag_iff_confidence (pa : PyPath)
    (la : Except String AudioFeatures) (pv : PyPath) (cv : VideoCapture)
    (av : Frame → Frame → ℚ) (n : ℕ) (r : AnalysisResult)
    (h : audioAnalyze pa la = Except.ok r ∨ videoAnalyze pv cv av n = Except.ok r) :
    r.is_likely_ai_generated = true ↔ 1/2 < r.confidence_score := by
  rcases h with h | h
  · exact absurd h (audioAnalyze_no_result pa la r)
  · simp only [videoAnalyze] at h
    split_ifs at h
    injection h with h2
    subst h2
    simp only [mkResult]
    exact decide_eq_true_iff

/-- C5: the dispatcher raises file-not-found for a missing path before
selecting a modality, and unsupported-format for an unknown lower-cased
extension; both outcomes are independent of every loader/decoder oracle in
the environment, so no decoding is attempted and no result is produced. -/
theorem dispatch_error_spec (env : DispatchEnv) (path : PyPath) :
    (path.existsOnDisk = false → deepfakeAnalyze env path = .error .fileNotFound)
    ∧ (path.existsOnDisk = true →
        strLower path.suffix ∉ audioSupportedFormats →
        strLower path.suffix ∉ videoSupportedFormats →
        deepfakeAnalyze env path = .error .unsupportedFormat) := by
  constructor
  · intro h
    simp [deepfakeAnalyze, h]
  · intro h ha hv
    simp [deepfakeAnalyze, h, ha, hv]

/-- C10: each modality analyzer re-checks the extension itself and raises
unsupported-format before any load attempt (the conclusion holds for every
load/capture oracle), so an audio analyzer rejects a video file even
though the dispatcher accepts it. -/
theorem modality_extension_revalidation (path : PyPath)
    (load : Except String AudioFeatures) (cap : VideoCapture)
    (adiff : Frame → Frame → ℚ) (n : ℕ) (hex : path.existsOnDisk = true) :
    (strLower path.suffix ∉ audioSupportedFormats →
      audioAnalyze path load = .error .unsupportedFormat)
    ∧ (strLower path.suffix ∉ videoSupportedFormats →
      videoAnalyze path cap adiff n = .error .unsupportedFormat) := by
  constructor <;> intro h
  · simp [audioAnalyze, hex, h]
  · simp [videoAnalyze, hex, h]

/-- C8: a missing library surfaces as a missing-dependency error at
analyzer construction; an `analyze` call on a constructed analyzer can
fail, but never with the missing-dependency kind. -/
theorem missing_dependency_spec :
    (∀ v : Bool, mkAudioAnalyzer false v = .error .missingDependency
      ∧ mkAudioAnalyzer true v = .ok v)
    ∧ (∀ (v : Bool) (n : ℕ), mkVideoAnalyzer false v n = .error .missingDependency
      ∧ mkVideoAnalyzer true v n = .ok (v, n))
    ∧ (∀ (path : PyPath) (load : Except String AudioFeatures),
        audioAnalyze path load ≠ .error .missingDependency)
    ∧ (∀ (path : PyPath) (cap : VideoCapture) (adiff : Frame → Frame → ℚ)
        (n : ℕ), videoAnalyze path cap adiff n ≠ .error .missingDependency) := by
  refine ⟨fun v => ⟨rfl, rfl⟩, fun v n => ⟨rfl, rfl⟩, ?_, ?_⟩
  · intro path load h
    rcases load with e | f <;>
      simp only [audioAnalyze, analyzeStatisticalFeatures] at h <;>
      split_ifs at h <;> simp at h
  · intro path cap adiff n h
    simp only [videoAnalyze] at h
    split_ifs at h <;> simp at h

/-- With more frames than sample points the truncated linspace index
formula is strictly increasing: consecutive ideal points differ by
`(fc-1)/(n-1) > 1`, so the floors differ by at least one. -/
theorem sampleIndex_strictMono (fc n : ℕ) (hfc : n < fc) (hn : 2 ≤ n) :
    StrictMono fun j => j * (fc - 1) / (n - 1) := by
  apply strictMono_nat_of_lt_succ
  intro j
  have hpos : 0 < n - 1 := by omega
  have h1 : j * (fc - 1) / (n - 1) + 1 = (j * (fc - 1) + (n - 1)) / (n - 1) :=
    (Nat.add_div_right _ hpos).symm
  have h2 : (j * (fc - 1) + (n - 1)) / (n - 1) ≤ (j + 1) * (fc - 1) / (n - 1) := by
    apply Nat.div_le_div_right
    have h3 : (j + 1) * (fc - 1) = j * (fc - 1) + (fc - 1) := by ring
    omega
  show j * (fc - 1) / (n - 1) < (j + 1) * (fc - 1) / (n - 1)
  omega

/-- C3 (amended): the sampler picks all of `0..frame_count-1` when
`frame_count ≤ N`; when `frame_count > N` and `N ≥ 2` it picks exactly `N`
strictly increasing indices, the `j`-th being the floor of the ideal even
spacing `j·(frame_count−1)/(N−1)`, starting at 0 and ending at
`frame_count−1`; when `frame_count > N = 1` it picks only index 0 (numpy's
one-point linspace returns the start point, so `frame_count−1` is not
reached).  All of this is a pure function of `(frame_count, N)`. -/
theorem sample_frames_spec (fc n : ℕ) :
    (fc ≤ n → sampleIndices fc n = List.range fc)
    ∧ (n < fc → 2 ≤ n →
        (sampleIndices fc n).length = n
        ∧ List.Pairwise (· < ·) (sampleIndices fc n)
        ∧ sampleIndices fc n = (List.range n).map
            (fun j : ℕ => ⌊((j : ℚ) * ((fc : ℚ) - 1)) / ((n : ℚ) - 1)⌋₊)
        ∧ (sampleIndices fc n).head? = some 0
        ∧ (sampleIndices fc n).getLast? = some (fc - 1))
    ∧ (n = 1 → 1 < fc → sampleIndices fc n = [0]) := by
  refine ⟨fun h => by rw [sampleIndices, if_pos h], fun h1 h2 => ?_, fun h1 h2 => ?_⟩
  · have hif : ¬ fc ≤ n := by omega
    have hpos : 0 < n - 1 := by omega
    rw [sampleIndices, if_neg hif]
    refine ⟨by simp, ?_, ?_, ?_, ?_⟩
    · exact (List.pairwise_lt_range n).map _
        fun a b hab => sampleIndex_strictMono fc n h1 h2 hab
    · refine List.map_congr_left fun j hj => ?_
      have e1 : ((fc : ℚ) - 1) = ((fc - 1 : ℕ) : ℚ) := by
        rw [Nat.cast_sub (by omega)]
        norm_num
      have e2 : ((n : ℚ) - 1) = ((n - 1 : ℕ) : ℚ) := by
        rw [Nat.cast_sub (by omega)]
        norm_num
      rw [e1, e2, show ((j : ℚ) * ((fc - 1 : ℕ) : ℚ)) = ((j * (fc - 1) : ℕ) : ℚ)
          by push_cast; ring,
        Nat.floor_div_eq_div]
    · obtain ⟨k, rfl⟩ : ∃ k, n = k + 1 := ⟨n - 1, by omega⟩
      rw [List.range_succ_eq_map]
      simp
    · rw [List.getLast?_eq_getElem?]
      have hlen : ((List.range n).map fun j => j * (fc - 1) / (n - 1)).length = n := by
        simp
      rw [hlen, List.getElem?_map, List.getElem?_range (show n - 1 < n by omega)]
      simp [Nat.mul_div_cancel_left _ hpos]
  · subst h1
    rw [sampleIndices, if_neg (by omega)]
    simp

/-- C3 counterexample to the claim as stated: with `frame_count = 5 > N =
1` (a sample budget the claim admits) the selected index list is `[0]`,
which does not reach `frame_count − 1 = 4`, so the selection is not
"evenly spaced from 0 to frame_count−1 inclusive". -/
theorem sample_frames_claim_counterexample :
    1 < 5 ∧ sampleIndices 5 1 = [0] ∧ 4 ∉ sampleIndices 5 1 := by decide

/-- Witness for C3 at `frame_count = 4, N = 30` (all frames) and
`frame_count = 7, N = 3` (three evenly spaced indices ending at 6). -/
theorem sample_frames_spec_witness :
    sampleIndices 4 30 = List.range 4
    ∧ (sampleIndices 7 3).length = 3
    ∧ (sampleIndices 7 3).getLast? = some (7 - 1) :=
  ⟨(sample_frames_spec 4 30).1 (by norm_num),
   ((sample_frames_spec 7 3).2.1 (by norm_num) (by norm_num)).1,
   ((sample_frames_spec 7 3).2.1 (by norm_num) (by norm_num)).2.2.2.2⟩

/-- C6: the spectral extractor flags `spectral_centroid_anomaly` exactly
when the standard deviation of the short-time spectral centroid (the
square root of the variance oracle) is below 500 Hz or above 5000 Hz, and
the flag's reason is "Unusual spectral centroid distribution". -/
theorem spectral_centroid_anomaly_spec (f : AudioFeatures) :
    ((analyzeSpectralFeatures f).lookup "spectral_centroid_anomaly" ≠ none
      ↔ (Real.sqrt (f.centroidVar : ℝ) < 500
          ∨ 5000 < Real.sqrt (f.centroidVar : ℝ)))
    ∧ ∀ a, (analyzeSpectralFeatures f).lookup "spectral_centroid_anomaly"
        = some a → a.reason = "Unusual spectral centroid distribution" := by
  have hb1 : Real.sqrt (f.centroidVar : ℝ) < 500 ↔ f.centroidVar < 500 ^ 2 := by
    rw [Real.sqrt_lt' (by norm_num)]
    exact_mod_cast Iff.rfl
  have hb2 : (5000 : ℝ) < Real.sqrt (f.centroidVar : ℝ)
      ↔ 5000 ^ 2 < f.centroidVar := by
    rw [Real.lt_sqrt (by norm_num)]
    exact_mod_cast Iff.rfl
  have hspec : (analyzeSpectralFeatures f).lookup "spectral_centroid_anomaly"
      = if f.centroidVar < 500 ^ 2 ∨ f.centroidVar > 5000 ^ 2
        then some
          { detected := true
            reason := "Unusual spectral centroid distribution"
            fields := [("mean", f.centroidMean)] }
        else none := by
    unfold analyzeSpectralFeatures
    split_ifs with h1 h2 h3 <;> simp [List.lookup]
  rw [hb1, hb2]
  constructor
  · rw [hspec]
    by_cases h : f.centroidVar < 500 ^ 2 ∨ f.centroidVar > 5000 ^ 2
    · rw [if_pos h]
      exact iff_of_true (by simp) h
    · rw [if_neg h]
      exact iff_of_false (by simp) h
  · rw [hspec]
    intro a ha
    by_cases h : f.centroidVar < 500 ^ 2 ∨ f.centroidVar > 5000 ^ 2
    · rw [if_pos h] at ha
      cases ha
      rfl
    · rw [if_neg h] at ha
      exact Option.noConfusion ha

/-- An audio feature vector whose spectral centroid has standard deviation
200 Hz (variance 40000) and no other triggering statistic. -/
def c6Features : AudioFeatures :=
  { centroidMean := 1000, centroidVar := 200 ^ 2, rolloffMean := 0,
    zcrMean := 0, zcrVar := 1, rmsMean := 0, rmsStd := 0, onsets := [],
    kurtosis := 0, sr := 22050 }

/-- Witness for C6: a centroid std of 200 Hz (< 500) triggers the flag. -/
theorem spectral_centroid_anomaly_spec_witness :
    (analyzeSpectralFeatures c6Features).lookup "spectral_centroid_anomaly"
      ≠ none :=
  (spectral_centroid_anomaly_spec c6Features).1.mpr
    (Or.inl (by
      have h : ((c6Features.centroidVar : ℚ) : ℝ) = 200 ^ 2 := by
        norm_num [c6Features]
      rw [h, Real.sqrt_sq (by norm_num)]
      norm_num))

/-- A lookup misses exactly when the key is not among the dict's keys. -/
theorem lookup_eq_none_iff (k : String) :
    ∀ d : AnomalySet, d.lookup k = none ↔ k ∉ keys d
  | [] => by simp [List.lookup, keys]
  | (k1, v1) :: tl => by
    have ih := lookup_eq_none_iff k tl
    by_cases hk : k = k1
    · subst hk
      simp [List.lookup, keys]
    · have hbeq : (k == k1) = false := beq_eq_false_iff_ne.mpr hk
      simp only [List.lookup, hbeq, keys, List.map_cons, List.mem_cons,
        not_or] at ih ⊢
      rw [ih]
      exact ⟨fun h2 => ⟨hk, h2⟩, fun h2 => h2.2⟩

/-- Updating the empty dict is the identity. -/
theorem dictUpdate_nil_left (d : AnomalySet) : dictUpdate [] d = d := by
  unfold dictUpdate
  simp [List.lookup]

/-- On key-disjoint dicts, `dict.update` is exactly concatenation — the
key union with every entry preserved. -/
theorem dictUpdate_disjoint (d1 d2 : AnomalySet)
    (h : (keys d1).Disjoint (keys d2)) : dictUpdate d1 d2 = d1 ++ d2 := by
  unfold dictUpdate
  have hmap : (d1.map fun kv =>
      match d2.lookup kv.1 with
      | some v => (kv.1, v)
      | none => kv) = d1.map id := by
    refine List.map_congr_left fun kv hkv => ?_
    have hnone : d2.lookup kv.1 = none :=
      (lookup_eq_none_iff kv.1 d2).mpr
        fun hmem => h (List.mem_map_of_mem Prod.fst hkv) hmem
    rw [hnone]
    rfl
  have hfilter : (d2.filter fun kv => (d1.lookup kv.1).isNone) = d2 := by
    refine List.filter_eq_self.mpr fun kv hkv => ?_
    have hnone : d1.lookup kv.1 = none :=
      (lookup_eq_none_iff kv.1 d1).mpr
        fun hmem => h hmem (List.mem_map_of_mem Prod.fst hkv)
    simp [hnone]
  rw [hmap, hfilter, List.map_id]

/-- The spectral group can only emit its three fixed keys, each at most
once. -/
theorem keys_spectral (f : AudioFeatures) :
    keys (analyzeSpectralFeatures f) ⊆
      ["spectral_centroid_anomaly", "spectral_rolloff_anomaly",
       "zero_crossing_anomaly"]
    ∧ (keys (analyzeSpectralFeatures f)).Nodup := by
  simp only [analyzeSpectralFeatures, keys]
  split_ifs <;> simp

/-- The audio temporal group can only emit its two fixed keys, each at
most once. -/
theorem keys_audioTemporal (f : AudioFeatures) :
    keys (analyzeTemporalFeatures f) ⊆ ["energy_anomaly", "onset_pattern_anomaly"]
    ∧ (keys (analyzeTemporalFeatures f)).Nodup := by
  simp only [analyzeTemporalFeatures, keys]
  split_ifs <;> simp

/-- The frame-quality group can only emit its two fixed keys, each at most
once. -/
theorem keys_quality (frames : List Frame) :
    keys (analyzeFrameQuality frames) ⊆
      ["sharpness_anomaly", "low_sharpness_anomaly"]
    ∧ (keys (analyzeFrameQuality frames)).Nodup := by
  simp only [analyzeFrameQuality, keys]
  split_ifs <;> simp

/-- The temporal-consistency group can only emit its two fixed keys, each
at most once. -/
theorem keys_videoTemporal (adiff : Frame → Frame → ℚ) (frames : List Frame) :
    keys (analyzeTemporalConsistency adiff frames) ⊆
      ["temporal_consistency_anomaly", "temporal_jump_anomaly"]
    ∧ (keys (analyzeTemporalConsistency adiff frames)).Nodup := by
  simp only [analyzeTemporalConsistency, keys]
  split_ifs <;> simp

/-- The color group can only emit its two fixed keys, each at most once. -/
theorem keys_color (frames : List Frame) :
    keys (analyzeColorDistribution frames) ⊆
      ["color_distribution_anomaly", "color_balance_anomaly"]
    ∧ (keys (analyzeColorDistribution frames)).Nodup := by
  simp only [analyzeColorDistribution, keys]
  split_ifs <;> simp

/-- The edge group can only emit its two fixed keys, each at most once. -/
theorem keys_edges (frames : List Frame) :
    keys (analyzeEdges frames) ⊆
      ["edge_consistency_anomaly", "low_edge_density_anomaly"]
    ∧ (keys (analyzeEdges frames)).Nodup := by
  simp only [analyzeEdges, keys]
  split_ifs <;> simp

/-- Keys of a concatenation are the concatenated keys. -/
theorem keys_append (d1 d2 : AnomalySet) :
    keys (d1 ++ d2) = keys d1 ++ keys d2 := List.map_append _ _ _

/-- Key lists drawn from disjoint name pools are disjoint. -/
theorem disjoint_of_subsets {l1 l2 bigL1 bigL2 : List String}
    (h1 : l1 ⊆ bigL1) (h2 : l2 ⊆ bigL2) (h : bigL1.Disjoint bigL2) :
    l1.Disjoint l2 :=
  fun _ ha hb => h (h1 ha) (h2 hb)

/-- The audio spectral and temporal groups can never emit a common key. -/
theorem audio_groups_disjoint (f : AudioFeatures) :
    (keys (analyzeSpectralFeatures f)).Disjoint
      (keys (analyzeTemporalFeatures f)) :=
  disjoint_of_subsets (keys_spectral f).1 (keys_audioTemporal f).1
    (by intro a ha hb; fin_cases ha <;> simp_all)

/-- The four video groups can never emit a common key, pairwise. -/
theorem video_groups_disjoint (adiff : Frame → Frame → ℚ)
    (frames : List Frame) :
    (keys (analyzeFrameQuality frames)).Disjoint
        (keys (analyzeTemporalConsistency adiff frames))
    ∧ (keys (analyzeFrameQuality frames)).Disjoint
        (keys (analyzeColorDistribution frames))
    ∧ (keys (analyzeFrameQuality frames)).Disjoint
        (keys (analyzeEdges frames))
    ∧ (keys (analyzeTemporalConsistency adiff frames)).Disjoint
        (keys (analyzeColorDistribution frames))
    ∧ (keys (analyzeTemporalConsistency adiff frames)).Disjoint
        (keys (analyzeEdges frames))
    ∧ (keys (analyzeColorDistribution frames)).Disjoint
        (keys (analyzeEdges frames)) := by
  have hq := (keys_quality frames).1
  have ht := (keys_videoTemporal adiff frames).1
  have hc := (keys_color frames).1
  have he := (keys_edges frames).1
  exact
    ⟨disjoint_of_subsets hq ht (by intro a ha hb; fin_cases ha <;> simp_all),
     disjoint_of_subsets hq hc (by intro a ha hb; fin_cases ha <;> simp_all),
     disjoint_of_subsets hq he (by intro a ha hb; fin_cases ha <;> simp_all),
     disjoint_of_subsets ht hc (by intro a ha hb; fin_cases ha <;> simp_all),
     disjoint_of_subsets ht he (by intro a ha hb; fin_cases ha <;> simp_all),
     disjoint_of_subsets hc he (by intro a ha hb; fin_cases ha <;> simp_all)⟩

/-- The audio merge performed by `analyze` is plain concatenation. -/
theorem audioMerged_eq_append (f : AudioFeatures) :
    dictUpdate (dictUpdate [] (analyzeSpectralFeatures f))
        (analyzeTemporalFeatures f)
      = analyzeSpectralFeatures f ++ analyzeTemporalFeatures f := by
  rw [dictUpdate_nil_left]
  exact dictUpdate_disjoint _ _ (audio_groups_disjoint f)

/-- The video merge performed by `analyze` is plain concatenation. -/
theorem videoMerged_eq_append (adiff : Frame → Frame → ℚ)
    (frames : List Frame) :
    dictUpdate (dictUpdate (dictUpdate
        (dictUpdate [] (analyzeFrameQuality frames))
        (analyzeTemporalConsistency adiff frames))
        (analyzeColorDistribution frames))
        (analyzeEdges frames)
      = analyzeFrameQuality frames ++ analyzeTemporalConsistency adiff frames
        ++ analyzeColorDistribution frames ++ analyzeEdges frames := by
  obtain ⟨hqt, hqc, hqe, htc, hte, hce⟩ := video_groups_disjoint adiff frames
  have hqtc : (keys (analyzeFrameQuality frames
      ++ analyzeTemporalConsistency adiff frames)).Disjoint
      (keys (analyzeColorDistribution frames)) := by
    rw [keys_append]
    exact List.disjoint_append_left.mpr ⟨hqc, htc⟩
  have hqtce : (keys (analyzeFrameQuality frames
      ++ analyzeTemporalConsistency adiff frames
      ++ analyzeColorDistribution frames)).Disjoint
      (keys (analyzeEdges frames)) := by
    rw [keys_append, keys_append]
    exact List.disjoint_append_left.mpr
      ⟨List.disjoint_append_left.mpr ⟨hqe, hte⟩, hce⟩
  rw [dictUpdate_nil_left, dictUpdate_disjoint _ _ hqt,
    dictUpdate_disjoint _ _ hqtc, dictUpdate_disjoint _ _ hqtce]

/-- C7 (amended): the combined anomaly set of an analysis is the key union
of the per-group sets — the groups' possible key pools are pairwise
disjoint by construction, so `dict.update` degenerates to concatenation
and no collision can ever occur; the merge primitive itself has no
collision flagging (see the counterexample theorem: on an artificial
duplicate key the later entry silently overwrites the earlier one). -/
theorem merge_key_union_spec (f : AudioFeatures) (adiff : Frame → Frame → ℚ)
    (frames : List Frame) :
    ((keys (analyzeSpectralFeatures f)).Disjoint
        (keys (analyzeTemporalFeatures f))
      ∧ dictUpdate (dictUpdate [] (analyzeSpectralFeatures f))
          (analyzeTemporalFeatures f)
        = analyzeSpectralFeatures f ++ analyzeTemporalFeatures f)
    ∧ (((keys (analyzeFrameQuality frames)).Disjoint
          (keys (analyzeTemporalConsistency adiff frames))
        ∧ (keys (analyzeFrameQuality frames)).Disjoint
            (keys (analyzeColorDistribution frames))
        ∧ (keys (analyzeFrameQuality frames)).Disjoint
            (keys (analyzeEdges frames))
        ∧ (keys (analyzeTemporalConsistency adiff frames)).Disjoint
            (keys (analyzeColorDistribution frames))
        ∧ (keys (analyzeTemporalConsistency adiff frames)).Disjoint
            (keys (analyzeEdges frames))
        ∧ (keys (analyzeColorDistribution frames)).Disjoint
            (keys (analyzeEdges frames)))
      ∧ dictUpdate (dictUpdate (dictUpdate
          (dictUpdate [] (analyzeFrameQuality frames))
          (analyzeTemporalConsistency adiff frames))
          (analyzeColorDistribution frames))
          (analyzeEdges frames)
        = analyzeFrameQuality frames
          ++ analyzeTemporalConsistency adiff frames
          ++ analyzeColorDistribution frames ++ analyzeEdges frames) :=
  ⟨⟨audio_groups_disjoint f, audioMerged_eq_append f⟩,
   ⟨video_groups_disjoint adiff frames, videoMerged_eq_append adiff frames⟩⟩

/-- C7 counterexample to the claim as stated: the merge primitive used by
both `analyze` methods (`dict.update`) does not flag a duplicate key — on
two sets sharing the key "dup_key" the later entry silently replaces the
earlier one, which is lost. -/
theorem merge_silently_overwrites :
    dictUpdate [("dup_key", { detected := true, reason := "first" })]
        [("dup_key", { detected := true, reason := "second" })]
      = [("dup_key", { detected := true, reason := "second" })]
    ∧ ("dup_key", ({ detected := true, reason := "first" } : Anomaly))
        ∉ dictUpdate [("dup_key", { detected := true, reason := "first" })]
            [("dup_key", { detected := true, reason := "second" })] := by
  constructor
  · rfl
  · intro h
    simp [dictUpdate, List.lookup] at h

/-- The keys of the merged video anomaly set contain no duplicates. -/
theorem videoMerged_keys_nodup (adiff : Frame → Frame → ℚ)
    (frames : List Frame) :
    (keys (analyzeFrameQuality frames
      ++ analyzeTemporalConsistency adiff frames
      ++ analyzeColorDistribution frames ++ analyzeEdges frames)).Nodup := by
  obtain ⟨hqt, hqc, hqe, htc, hte, hce⟩ := video_groups_disjoint adiff frames
  rw [keys_append, keys_append, keys_append]
  refine List.Nodup.append (List.Nodup.append (List.Nodup.append
      (keys_quality frames).2 (keys_videoTemporal adiff frames).2 hqt)
      (keys_color frames).2 ?_)
      (keys_edges frames).2 ?_
  · exact List.disjoint_append_left.mpr ⟨hqc, htc⟩
  · exact List.disjoint_append_left.mpr
      ⟨List.disjoint_append_left.mpr ⟨hqe, hte⟩, hce⟩

/-- C9: in every constructed `AnalysisResult`, `anomalies_detected` is the
key union (here: the duplicate-free concatenation) of the per-group
anomaly sets stored as the values of `analysis_details` — group names
spectral/temporal/statistical for audio and quality/temporal/color/edges
for video — so each detected anomaly belongs to exactly one extractor
group and conversely.  (Audio never constructs a result, by
`audioAnalyze_no_result`, so its half holds vacuously.) -/
theorem result_union_of_details :
    (∀ (pa : PyPath) (la : Except String AudioFeatures) (r : AnalysisResult),
      audioAnalyze pa la = Except.ok r →
        r.analysis_details.map Prod.fst = ["spectral", "temporal", "statistical"]
        ∧ r.anomalies_detected = (r.analysis_details.map Prod.snd).flatten
        ∧ (keys r.anomalies_detected).Nodup)
    ∧ (∀ (pv : PyPath) (cv : VideoCapture) (av : Frame → Frame → ℚ) (n : ℕ)
        (r : AnalysisResult),
      videoAnalyze pv cv av n = Except.ok r →
        r.analysis_details.map Prod.fst = ["quality", "temporal", "color", "edges"]
        ∧ r.anomalies_detected = (r.analysis_details.map Prod.snd).flatten
        ∧ (keys r.anomalies_detected).Nodup) := by
  constructor
  · intro pa la r h
    exact absurd h (audioAnalyze_no_result pa la r)
  · intro pv cv av n r h
    simp only [videoAnalyze] at h
    split_ifs at h
    injection h with h2
    subst h2
    simp only [mkResult]
    refine ⟨rfl, ?_, ?_⟩
    · rw [videoMerged_eq_append]
      simp
    · rw [videoMerged_eq_append]
      exact videoMerged_keys_nodup av (sampleFramesFromCap cv n)

/-- The concrete media inputs used by the closed witnesses: an existing
`.mp4` path and an opened zero-frame capture. -/
def samplePath : PyPath :=
  { name := "clip.mp4", existsOnDisk := true, suffix := ".mp4" }

/-- A capture that opens but delivers no frames. -/
def sampleCap : VideoCapture :=
  { opened := true, fps := 30, frameCount := 0, width := 640, height := 480,
    readFrame := fun _ => none }

/-- A trivial frame-difference oracle. -/
def sampleAdiff : Frame → Frame → ℚ := fun _ _ => 0

/-- The result the video pipeline produces on the zero-frame capture. -/
def sampleResult : AnalysisResult :=
  { file_path := "clip.mp4", file_type := "video",
    is_likely_ai_generated := false, confidence_score := 0,
    anomalies_detected := [],
    analysis_details :=
      [("quality", []), ("temporal", []), ("color", []), ("edges", [])] }

/-- The video pipeline on the sample inputs yields the sample result. -/
theorem videoAnalyze_sample :
    videoAnalyze samplePath sampleCap sampleAdiff 30 = Except.ok sampleResult := by
  simp [videoAnalyze, samplePath, sampleCap, sampleAdiff, sampleResult,
    mkResult, sampleFramesFromCap, sampleIndices, analyzeFrameQuality,
    analyzeTemporalConsistency, analyzeColorDistribution, analyzeEdges,
    dictUpdate, videoCalculateConfidence, calculateConfidence, strLower,
    videoSupportedFormats, keys, listMean, listVar, listMax]

/-- Witness for C2 at the concrete video analysis. -/
theorem result_flag_iff_confidence_witness :
    sampleResult.is_likely_ai_generated = true
      ↔ 1/2 < sampleResult.confidence_score :=
  result_flag_iff_confidence samplePath (Except.error "no audio") samplePath
    sampleCap sampleAdiff 30 sampleResult (Or.inr videoAnalyze_sample)

/-- Witness for C9 at the concrete video analysis. -/
theorem result_union_of_details_witness :
    sampleResult.anomalies_detected
        = (sampleResult.analysis_details.map Prod.snd).flatten
    ∧ sampleResult.analysis_details.map Prod.fst
        = ["quality", "temporal", "color", "edges"] :=
  ⟨(result_union_of_details.2 samplePath sampleCap sampleAdiff 30 sampleResult
      videoAnalyze_sample).2.1,
   (result_union_of_details.2 samplePath sampleCap sampleAdiff 30 sampleResult
      videoAnalyze_sample).1⟩

/-- The dispatcher environment used by the closed witnesses. -/
def sampleEnv : DispatchEnv :=
  { audioLibsAvailable := true, videoLibsAvailable := true,
    audioLoad := Except.error "decode", videoCap := sampleCap,
    adiff := sampleAdiff }

/-- A path that does not exist on disk. -/
def missingPath : PyPath :=
  { name := "ghost.mp3", existsOnDisk := false, suffix := ".mp3" }

/-- An existing path with the unknown extension `.xyz`. -/
def xyzPath : PyPath :=
  { name := "file.xyz", existsOnDisk := true, suffix := ".xyz" }

/-- Witness for C5: the two error scenarios at concrete paths. -/
theorem dispatch_error_spec_witness :
    deepfakeAnalyze sampleEnv missingPath = .error .fileNotFound
    ∧ deepfakeAnalyze sampleEnv xyzPath = .error .unsupportedFormat :=
  ⟨(dispatch_error_spec sampleEnv missingPath).1 rfl,
   (dispatch_error_spec sampleEnv xyzPath).2 rfl
     (by simp [strLower, audioSupportedFormats, xyzPath])
     (by simp [strLower, videoSupportedFormats, xyzPath])⟩

/-- Witness for C8: missing libraries fail construction; a concrete
analyze call does not fail with the missing-dependency kind. -/
theorem missing_dependency_spec_witness :
    mkAudioAnalyzer false true = .error .missingDependency
    ∧ audioAnalyze xyzPath (Except.error "decode")
        ≠ .error .missingDependency :=
  ⟨(missing_dependency_spec.1 true).1,
   missing_dependency_spec.2.2.1 xyzPath (Except.error "decode")⟩

/-- Witness for C10: the audio analyzer rejects an existing `.mp4` file
that the dispatcher (via the video pipeline) accepts. -/
theorem modality_extension_revalidation_witness :
    audioAnalyze samplePath (Except.error "decode") = .error .unsupportedFormat
    ∧ strLower samplePath.suffix ∈ videoSupportedFormats :=
  ⟨(modality_extension_revalidation samplePath (Except.error "decode")
      sampleCap sampleAdiff 30 rfl).1
     (by simp [strLower, audioSupportedFormats, samplePath]),
   by simp [strLower, videoSupportedFormats, samplePath]⟩

end DeepfakeCheck
